import Mathlib

/-!
Shallow embedding of the NNAPI QDQ node-group selectors
(`onnxruntime/core/providers/nnapi/nnapi_builtin/selectors_actions/nnapi_qdq_selectors.cc`).

The selectors scan a graph for dequantize → op → quantize motifs.  Each
checker receives the node under consideration together with its dequantize
parents (`dq_nodes`) and quantize children (`q_nodes`) and decides whether
the group may be fused.  Machine `int32_t` element-type codes are modelled
as `Int`; positional vector accesses that the C++ performs without a bounds
check are modelled in `Option`, with `none` marking an out-of-bounds read or
null dereference (undefined behaviour in the source).
-/

namespace NNAPIQDQ

/-- ONNX `TensorProto_DataType` code for 8-bit unsigned integers. -/
def TensorProto_DataType_UINT8 : Int := 2

/-- ONNX `TensorProto_DataType` code for 8-bit signed integers. -/
def TensorProto_DataType_INT8 : Int := 3

/-- ONNX `TensorProto_DataType` code for 32-bit signed integers. -/
def TensorProto_DataType_INT32 : Int := 6

/-- A `NodeArg`: a declared input/output slot of a node.  `exists_` models
`NodeArg::Exists()` (a declared-but-absent optional argument has
`exists_ = false`); `elemType` models
`TypeAsProto()->tensor_type().elem_type()`. -/
structure NodeArg where
  exists_ : Bool
  elemType : Int
  deriving DecidableEq, Repr

/-- A graph node: ordered input and output definition slots.  An entry that
is `none` models a null `NodeArg*` in the defs vector. -/
structure Node where
  inputDefs : List (Option NodeArg)
  outputDefs : List (Option NodeArg)
  deriving DecidableEq, Repr

/-- The graph collaborator: the traversal and output-exposure queries the
selectors consume (`graph_utils::FindParentsByType`,
`graph_utils::FindChildrenByType`, `Graph::NodeProducesGraphOutput`). -/
structure Graph where
  findParentsByType : Node → String → List Node
  findChildrenByType : Node → String → List Node
  nodeProducesGraphOutput : Node → Bool

/-- Modelled from the spec: `QDQ::DQOpName`, the dequantize operator kind
(declared in `qdq_util.h`, not part of this source tree). -/
def DQOpName : String := "DequantizeLinear"

/-- Modelled from the spec: `QDQ::QOpName`, the quantize operator kind
(declared in `qdq_util.h`, not part of this source tree). -/
def QOpName : String := "QuantizeLinear"

/-- `NumActualValues(node, input)`: the number of input (resp. output) defs
that are non-null and exist — absent optional slots do not count. -/
def NumActualValues (node : Node) (input : Bool) : Nat :=
  let defs := if input then node.inputDefs else node.outputDefs
  (defs.filter fun d =>
    match d with
    | some a => a.exists_
    | none => false).length

/-- Element type of the first def in a defs list:
`defs[0]->TypeAsProto()->tensor_type().elem_type()`.  `none` models an
out-of-bounds access or a null dereference. -/
def firstArgElemType (defs : List (Option NodeArg)) : Option Int :=
  match defs[0]? with
  | some (some a) => some a.elemType
  | _ => none

/-- Element type of a node's first input def. -/
def firstInputElemType (n : Node) : Option Int :=
  firstArgElemType n.inputDefs

/-- Element type of a node's first output def. -/
def firstOutputElemType (n : Node) : Option Int :=
  firstArgElemType n.outputDefs

/-- `dq_nodes[i]->InputDefs()[0]->TypeAsProto()->tensor_type().elem_type()`:
`none` models an out-of-bounds index into `dq_nodes` or a missing def. -/
def dqInputType (dq_nodes : List Node) (i : Nat) : Option Int :=
  match dq_nodes[i]? with
  | some n => firstInputElemType n
  | none => none

/-- `q_nodes[i]->OutputDefs()[0]->TypeAsProto()->tensor_type().elem_type()`:
`none` models an out-of-bounds index into `q_nodes` or a missing def. -/
def qOutputType (q_nodes : List Node) (i : Nat) : Option Int :=
  match q_nodes[i]? with
  | some n => firstOutputElemType n
  | none => none

/-- `BaseSelector::CheckQDQNodes`.  The C++ sentinel `num_dq_inputs == -1`
(use the node's actual input count) is modelled as `none`. -/
def CheckQDQNodes (graph : Graph) (node : Node) (dq_nodes q_nodes : List Node)
    (num_dq_inputs : Option Nat) : Bool :=
  let n_dq :=
    match num_dq_inputs with
    | some k => k
    | none => NumActualValues node true
  let num_outputs := NumActualValues node false
  n_dq == dq_nodes.length && num_outputs == q_nodes.length &&
    !graph.nodeProducesGraphOutput node

/-- `UnarySelector::Check`. -/
def UnarySelectorCheck (int8_allowed_ : Bool) (graph : Graph) (node : Node)
    (dq_nodes q_nodes : List Node) : Option Bool :=
  if !CheckQDQNodes graph node dq_nodes q_nodes (some 1) then
    some false
  else
    match dqInputType dq_nodes 0, qOutputType q_nodes 0 with
    | some dt_input, some dt_output =>
        some ((dt_input == TensorProto_DataType_UINT8 ||
               (int8_allowed_ && dt_input == TensorProto_DataType_INT8)) &&
              (dt_output == TensorProto_DataType_UINT8 ||
               (int8_allowed_ && dt_output == TensorProto_DataType_INT8)))
    | _, _ => none

/-- `BinarySelector::Check`. -/
def BinarySelectorCheck (graph : Graph) (node : Node)
    (dq_nodes q_nodes : List Node) : Option Bool :=
  if !CheckQDQNodes graph node dq_nodes q_nodes none then
    some false
  else
    match dqInputType dq_nodes 0, dqInputType dq_nodes 1, qOutputType q_nodes 0 with
    | some dt_input_1, some dt_input_2, some dt_output =>
        some (dt_input_1 == dt_input_2 && dt_input_1 == dt_output)
    | _, _, _ => none

/-- The loop of `VariadicSelector::Check` over `dq_nodes[1..]`: return
`false` at the first element whose type differs from `dt_input`. -/
def variadicTailCheck (dt_input : Int) : List Node → Option Bool
  | [] => some true
  | n :: rest =>
      match firstInputElemType n with
      | none => none
      | some t =>
          if dt_input == t then variadicTailCheck dt_input rest else some false

/-- `VariadicSelector::Check`. -/
def VariadicSelectorCheck (graph : Graph) (node : Node)
    (dq_nodes q_nodes : List Node) : Option Bool :=
  if !CheckQDQNodes graph node dq_nodes q_nodes none then
    some false
  else
    match dqInputType dq_nodes 0 with
    | none => none
    | some dt_input =>
        match variadicTailCheck dt_input dq_nodes.tail with
        | none => none
        | some false => some false
        | some true =>
            match qOutputType q_nodes 0 with
            | none => none
            | some dt_output => some (dt_input == dt_output)

/-- `ConvSelector::Check`. -/
def ConvSelectorCheck (graph : Graph) (node : Node)
    (dq_nodes q_nodes : List Node) : Option Bool :=
  if !CheckQDQNodes graph node dq_nodes q_nodes none then
    some false
  else
    match dqInputType dq_nodes 0, qOutputType q_nodes 0 with
    | some dt_input, some dt_output =>
        if dt_input != TensorProto_DataType_UINT8 ||
           dt_output != TensorProto_DataType_UINT8 then
          some false
        else if dq_nodes.length < 3 then
          some true
        else
          match dqInputType dq_nodes 2 with
          | none => none
          | some dt_bias => some (dt_bias == TensorProto_DataType_INT32)
    | _, _ => none

/-- `MatMulSelector::Check`. -/
def MatMulSelectorCheck (graph : Graph) (node : Node)
    (dq_nodes q_nodes : List Node) : Option Bool :=
  if dq_nodes.length != 2 then
    some false
  else
    let qlinear := !q_nodes.isEmpty
    let qcheck : Option Bool :=
      if qlinear then
        if !CheckQDQNodes graph node dq_nodes q_nodes none then
          some false
        else
          match qOutputType q_nodes 0 with
          | none => none
          | some dt_output =>
              if dt_output != TensorProto_DataType_UINT8 then some false
              else some true
      else
        some true
    match qcheck with
    | none => none
    | some false => some false
    | some true =>
        match dqInputType dq_nodes 0 with
        | none => none
        | some dt_input => some (dt_input == TensorProto_DataType_UINT8)

/-- Modelled from the spec: the Candidate Selection Result built by
`ConstNodesToOptimizeBuilder::Build` (declared in
`nnapi_qdq_selector_helper.h`, not part of this source tree): ordered
dequantize producers (with explicit empty slots), the target node, ordered
quantize consumers, and the variadic arity override `num_input_defs`
(`-1` meaning no override). -/
structure ConstNodesToOptimize where
  input_nodes : List (Option Node)
  target_node : Option Node
  output_nodes : List Node
  num_input_defs : Int
  deriving DecidableEq, Repr

/-- Modelled from the spec: the mutable builder for `ConstNodesToOptimize`
with the same fields; `num_input_defs` starts at `-1`. -/
structure ConstNodesToOptimizeBuilder where
  input_nodes : List (Option Node)
  target_node : Option Node
  output_nodes : List Node
  num_input_defs : Int
  deriving DecidableEq, Repr

/-- Modelled from the spec: `ConstNodesToOptimizeBuilder::Build` snapshots
the builder's fields into the immutable result. -/
def ConstNodesToOptimizeBuilder.Build (b : ConstNodesToOptimizeBuilder) :
    ConstNodesToOptimize :=
  ⟨b.input_nodes, b.target_node, b.output_nodes, b.num_input_defs⟩

/-- `std::vector::resize(n)` on a vector of `const Node*`: truncate or pad
with null pointers. -/
def resizeOptNodes (l : List (Option Node)) (n : Nat) : List (Option Node) :=
  l.take n ++ List.replicate (n - l.length) none

/-- The five selector variants.  `UnarySelector` carries its
`int8_allowed_` configuration field. -/
inductive Selector where
  | unary (int8_allowed_ : Bool)
  | binary
  | variadic
  | conv
  | matmul
  deriving DecidableEq, Repr

/-- Virtual dispatch of `Check` over the selector variants. -/
def Selector.Check (s : Selector) (graph : Graph) (node : Node)
    (dq_nodes q_nodes : List Node) : Option Bool :=
  match s with
  | .unary a => UnarySelectorCheck a graph node dq_nodes q_nodes
  | .binary => BinarySelectorCheck graph node dq_nodes q_nodes
  | .variadic => VariadicSelectorCheck graph node dq_nodes q_nodes
  | .conv => ConvSelectorCheck graph node dq_nodes q_nodes
  | .matmul => MatMulSelectorCheck graph node dq_nodes q_nodes

/-- Virtual dispatch of `UpdateBuilder`: `VariadicSelector` sets
`num_input_defs = 1`, `ConvSelector` resizes `input_nodes` to 3, the base
hook is a no-op. -/
def Selector.UpdateBuilder (s : Selector) (b : ConstNodesToOptimizeBuilder) :
    ConstNodesToOptimizeBuilder :=
  match s with
  | .variadic => { b with num_input_defs := 1 }
  | .conv => { b with input_nodes := resizeOptNodes b.input_nodes 3 }
  | _ => b

/-- `BaseSelector::Select`.  The outer `Option` propagates undefined
behaviour (`none`) from `Check`; otherwise the pair models the returned
`bool` together with the `selection` out-parameter. -/
def Select (s : Selector) (graph : Graph) (node : Node) :
    Option (Bool × Option ConstNodesToOptimize) :=
  let dq_nodes := graph.findParentsByType node DQOpName
  let q_nodes := graph.findChildrenByType node QOpName
  match s.Check graph node dq_nodes q_nodes with
  | none => none
  | some false => some (false, none)
  | some true =>
      let builder : ConstNodesToOptimizeBuilder :=
        ⟨dq_nodes.map (fun d => some d), some node, q_nodes, -1⟩
      some (true, some (s.UpdateBuilder builder).Build)

/-! ### Concrete fixtures used by witnesses and counterexamples -/

/-- A bound arg of element type `UINT8`. -/
def uint8Arg : NodeArg := ⟨true, TensorProto_DataType_UINT8⟩

/-- A bound arg of element type `INT8`. -/
def int8Arg : NodeArg := ⟨true, TensorProto_DataType_INT8⟩

/-- A bound arg of element type float (`1`). -/
def floatArg : NodeArg := ⟨true, 1⟩

/-- A dequantize node whose first input has type `UINT8`. -/
def dqU8 : Node := ⟨[some uint8Arg], [some floatArg]⟩

/-- A dequantize node whose first input has type `INT8`. -/
def dqI8 : Node := ⟨[some int8Arg], [some floatArg]⟩

/-- A dequantize node whose first input has float type (a weight). -/
def dqF : Node := ⟨[some floatArg], [some floatArg]⟩

/-- A quantize node whose first output has type `UINT8`. -/
def qU8 : Node := ⟨[some floatArg], [some uint8Arg]⟩

/-- A quantize node whose first output has type `INT8`. -/
def qI8 : Node := ⟨[some floatArg], [some int8Arg]⟩

/-- A target node with one bound input and one bound output. -/
def target11 : Node := ⟨[some floatArg], [some floatArg]⟩

/-- A target node with two bound inputs and one bound output. -/
def target21 : Node := ⟨[some floatArg, some floatArg], [some floatArg]⟩

/-- A target node with three bound inputs and one bound output. -/
def target31 : Node :=
  ⟨[some floatArg, some floatArg, some floatArg], [some floatArg]⟩

/-- A target node with one bound input and no bound output. -/
def target10 : Node := ⟨[some floatArg], []⟩

/-- A target node with no bound input and no bound output. -/
def target00 : Node := ⟨[], []⟩

/-- A graph whose dequantize parents are `dq`, quantize children are `q`,
and whose nodes all report graph-output exposure `out`. -/
def mkGraph (dq q : List Node) (out : Bool) : Graph :=
  ⟨fun _ kind => if kind == DQOpName then dq else [],
   fun _ kind => if kind == QOpName then q else [],
   fun _ => out⟩

/-- Replace the element type of a node's first input argument, leaving
everything else unchanged (a no-op when that argument is absent).  Used to
state that two inputs differ only in that one element type. -/
def setFirstInputType (n : Node) (t : Int) : Node :=
  { n with inputDefs :=
      match n.inputDefs with
      | some a :: rest => some { a with elemType := t } :: rest
      | l => l }

/-! ### Helper lemmas -/

/-- `dqInputType` at index 0 of a cons is the head's first input type. -/
theorem dqInputType_cons_zero (n : Node) (l : List Node) :
    dqInputType (n :: l) 0 = firstInputElemType n := by
  simp [dqInputType]

/-- `qOutputType` at index 0 of a cons is the head's first output type. -/
theorem qOutputType_cons_zero (n : Node) (l : List Node) :
    qOutputType (n :: l) 0 = firstOutputElemType n := by
  simp [qOutputType]

/-- A node exposed as a graph output fails the shared check. -/
theorem checkQDQNodes_false_of_graph_output (graph : Graph) (node : Node)
    (dq_nodes q_nodes : List Node) (k : Option Nat)
    (h : graph.nodeProducesGraphOutput node = true) :
    CheckQDQNodes graph node dq_nodes q_nodes k = false := by
  simp [CheckQDQNodes, h]

/-- The shared check only looks at the length of `dq_nodes`. -/
theorem checkQDQNodes_length_congr (graph : Graph) (node : Node)
    {dq_nodes dq_nodes2 : List Node} (q_nodes : List Node) (k : Option Nat)
    (h : dq_nodes.length = dq_nodes2.length) :
    CheckQDQNodes graph node dq_nodes q_nodes k =
      CheckQDQNodes graph node dq_nodes2 q_nodes k := by
  simp [CheckQDQNodes, h]

/-- `Select` fails exactly when the checker answers `some false`. -/
theorem select_false_iff (s : Selector) (graph : Graph) (node : Node) :
    Select s graph node = some (false, none) ↔
      s.Check graph node (graph.findParentsByType node DQOpName)
        (graph.findChildrenByType node QOpName) = some false := by
  cases h : s.Check graph node (graph.findParentsByType node DQOpName)
      (graph.findChildrenByType node QOpName) with
  | none => simp [Select, h]
  | some b => cases b <;> simp [Select, h]

/-- On a successful check, `Select` returns the built result: the builder is
seeded with the discovered nodes and the update hook runs before `Build`. -/
theorem select_true (s : Selector) (graph : Graph) (node : Node)
    (h : s.Check graph node (graph.findParentsByType node DQOpName)
      (graph.findChildrenByType node QOpName) = some true) :
    Select s graph node = some (true, some
      ((s.UpdateBuilder
        ⟨(graph.findParentsByType node DQOpName).map (fun d => some d),
         some node, graph.findChildrenByType node QOpName, -1⟩).Build)) := by
  simp [Select, h]

/-! ### Claim theorems -/

/-- C1 (amended): whenever the shared cardinality/output-exposure check is
consulted — that is, for every selector except `MatMulSelector` with zero
quantize consumers — a node that directly produces a graph-level output is
a non-match, for every selector variant and regardless of type
compatibility. -/
theorem C1_graph_output_nonmatch (s : Selector) (graph : Graph) (node : Node)
    (hout : graph.nodeProducesGraphOutput node = true)
    (hs : s ≠ Selector.matmul ∨ graph.findChildrenByType node QOpName ≠ []) :
    Select s graph node = some (false, none) := by
  rw [select_false_iff]
  have hfalse : ∀ (dq q : List Node) (k : Option Nat),
      CheckQDQNodes graph node dq q k = false :=
    fun dq q k => checkQDQNodes_false_of_graph_output graph node dq q k hout
  cases s with
  | unary a => simp [Selector.Check, UnarySelectorCheck, hfalse]
  | binary => simp [Selector.Check, BinarySelectorCheck, hfalse]
  | variadic => simp [Selector.Check, VariadicSelectorCheck, hfalse]
  | conv => simp [Selector.Check, ConvSelectorCheck, hfalse]
  | matmul =>
      have hq : graph.findChildrenByType node QOpName ≠ [] := by
        rcases hs with h | h
        · exact absurd rfl h
        · exact h
      cases hql : graph.findChildrenByType node QOpName with
      | nil => exact absurd hql hq
      | cons qh qt =>
          simp only [Selector.Check, MatMulSelectorCheck, hql]
          split
          · rfl
          · simp [hfalse]

/-- C1 counterexample: with two `UINT8` dequantize parents and no quantize
child, `MatMulSelector` matches a node even though it directly produces a
graph-level output, refuting the claim as stated. -/
theorem C1_graph_output_nonmatch_counterexample :
    (mkGraph [dqU8, dqU8] [] true).nodeProducesGraphOutput target21 = true ∧
    Select .matmul (mkGraph [dqU8, dqU8] [] true) target21 =
      some (true, some ⟨[some dqU8, some dqU8], some target21, [], -1⟩) :=
  ⟨rfl, by decide⟩

/-- C1 witness: the amended theorem applied to `BinarySelector` at a
concrete graph-output node. -/
theorem C1_graph_output_nonmatch_witness :
    Select .binary (mkGraph [dqU8, dqU8] [] true) target21 =
      some (false, none) :=
  C1_graph_output_nonmatch .binary (mkGraph [dqU8, dqU8] [] true) target21 rfl
    (Or.inl (by decide))

/-- C2: concrete inputs on which the shared cardinality check passes and a
checker then indexes `dq_nodes` or `q_nodes` out of bounds (modelled as
`none`): `BinarySelector` reads `dq_nodes[1]` at a node with one bound
input; `UnarySelector` reads `q_nodes[0]` at a node with no bound output;
`VariadicSelector` reads `dq_nodes[0]` at a node with no bound input. -/
theorem C2_positional_access_oob :
    (CheckQDQNodes (mkGraph [dqU8] [qU8] false) target11 [dqU8] [qU8] none
        = true ∧
      BinarySelectorCheck (mkGraph [dqU8] [qU8] false) target11 [dqU8] [qU8]
        = none) ∧
    (CheckQDQNodes (mkGraph [dqU8] [] false) target10 [dqU8] [] (some 1)
        = true ∧
      UnarySelectorCheck false (mkGraph [dqU8] [] false) target10 [dqU8] []
        = none) ∧
    (CheckQDQNodes (mkGraph [] [] false) target00 [] [] none = true ∧
      VariadicSelectorCheck (mkGraph [] [] false) target00 [] [] = none) := by
  decide

/-- C9: `Select` returns non-match exactly when the active checker answers
`some false`, and no result is built in that case; on `some true` it
returns the result built from the discovered dequantize parents (in
discovery order), the target node, and the discovered quantize children
(in discovery order), with the checker's update hook applied before the
result is returned. -/
theorem C9_select_characterization (s : Selector) (graph : Graph)
    (node : Node) (dq_nodes q_nodes : List Node)
    (hdq : dq_nodes = graph.findParentsByType node DQOpName)
    (hq : q_nodes = graph.findChildrenByType node QOpName) :
    (Select s graph node = some (false, none) ↔
      s.Check graph node dq_nodes q_nodes = some false) ∧
    (s.Check graph node dq_nodes q_nodes = some true →
      Select s graph node = some (true, some
        ((s.UpdateBuilder
          ⟨dq_nodes.map (fun d => some d), some node, q_nodes, -1⟩).Build))) := by
  subst hdq hq
  exact ⟨select_false_iff s graph node, fun h => select_true s graph node h⟩

/-- C9 witness: at a node with one bound input and no dequantize parent the
binary checker answers `some false`, so `Select` returns non-match. -/
theorem C9_select_characterization_witness :
    Select .binary (mkGraph [] [] false) target11 = some (false, none) :=
  (C9_select_characterization .binary (mkGraph [] [] false) target11 [] []
    (by decide) (by decide)).1.mpr (by decide)

/-- C10: `MatMulSelector::Check` never inspects the second dequantize
parent's element type: changing the element type of `dq_nodes[1]`'s first
input argument, and nothing else, leaves the result unchanged. -/
theorem C10_matmul_second_input_type_irrelevant (graph : Graph) (node : Node)
    (q_nodes : List Node) (d0 d1 : Node) (rest : List Node) (t : Int) :
    MatMulSelectorCheck graph node (d0 :: setFirstInputType d1 t :: rest)
        q_nodes =
      MatMulSelectorCheck graph node (d0 :: d1 :: rest) q_nodes := by
  have hlen : (d0 :: setFirstInputType d1 t :: rest).length =
      (d0 :: d1 :: rest).length := by simp
  simp only [MatMulSelectorCheck, hlen,
    checkQDQNodes_length_congr graph node q_nodes none hlen,
    dqInputType_cons_zero]

/-- C3: `MatMulSelector::Check` rejects any dequantize-parent count other
than 2; with 2 parents whose first parent's input type is `UINT8` it
matches with zero quantize children (skipping the shared check entirely —
no exposure or cardinality hypothesis is needed) and with one `UINT8`
quantize child passing the shared check; a quantize child of any other
output type is a non-match. -/
theorem C3_matmul_characterization (graph : Graph) (node : Node)
    (dq_nodes q_nodes : List Node) :
    (dq_nodes.length ≠ 2 →
      MatMulSelectorCheck graph node dq_nodes q_nodes = some false) ∧
    (dq_nodes.length = 2 → q_nodes = [] →
      dqInputType dq_nodes 0 = some TensorProto_DataType_UINT8 →
      MatMulSelectorCheck graph node dq_nodes q_nodes = some true) ∧
    (dq_nodes.length = 2 →
      CheckQDQNodes graph node dq_nodes q_nodes none = true →
      qOutputType q_nodes 0 = some TensorProto_DataType_UINT8 →
      dqInputType dq_nodes 0 = some TensorProto_DataType_UINT8 →
      q_nodes ≠ [] →
      MatMulSelectorCheck graph node dq_nodes q_nodes = some true) ∧
    (∀ t : Int, q_nodes ≠ [] → qOutputType q_nodes 0 = some t →
      t ≠ TensorProto_DataType_UINT8 →
      MatMulSelectorCheck graph node dq_nodes q_nodes = some false) := by
  refine ⟨?_, ?_, ?_, ?_⟩
  · intro h
    have hb : (dq_nodes.length != 2) = true := bne_iff_ne.mpr h
    simp [MatMulSelectorCheck, hb]
  · intro h2 hq hi
    subst hq
    have hb : (dq_nodes.length != 2) = false := by simp [h2]
    simp [MatMulSelectorCheck, hb, hi]
  · intro h2 hc ho hi hq
    have hb : (dq_nodes.length != 2) = false := by simp [h2]
    cases q_nodes with
    | nil => exact absurd rfl hq
    | cons qh qt => simp [MatMulSelectorCheck, hb, hc, ho, hi]
  · intro t hq ho ht
    by_cases h2 : dq_nodes.length = 2
    · have hb : (dq_nodes.length != 2) = false := by simp [h2]
      cases q_nodes with
      | nil => exact absurd rfl hq
      | cons qh qt =>
          cases hc : CheckQDQNodes graph node dq_nodes (qh :: qt) none with
          | false => simp [MatMulSelectorCheck, hb, hc]
          | true => simp [MatMulSelectorCheck, hb, hc, ho, bne_iff_ne.mpr ht]
    · have hb : (dq_nodes.length != 2) = true := bne_iff_ne.mpr h2
      simp [MatMulSelectorCheck, hb]

/-- C3 witness: two parents with `UINT8` first type and no quantize child
match, even at a node that produces a graph output (the shared check is
skipped). -/
theorem C3_matmul_characterization_witness :
    MatMulSelectorCheck (mkGraph [dqU8, dqF] [] true) target21 [dqU8, dqF] []
      = some true :=
  (C3_matmul_characterization (mkGraph [dqU8, dqF] [] true) target21
    [dqU8, dqF] []).2.1 rfl rfl (by decide)

/-- Computation of `UnarySelector::Check` once the shared check passes and
both type accesses succeed. -/
theorem unaryCheck_eq_of_types (int8_allowed_ : Bool) (graph : Graph)
    (node : Node) (dq_nodes q_nodes : List Node) (ti tOut : Int)
    (hc : CheckQDQNodes graph node dq_nodes q_nodes (some 1) = true)
    (hti : dqInputType dq_nodes 0 = some ti)
    (hto : qOutputType q_nodes 0 = some tOut) :
    UnarySelectorCheck int8_allowed_ graph node dq_nodes q_nodes =
      some ((ti == TensorProto_DataType_UINT8 ||
             (int8_allowed_ && ti == TensorProto_DataType_INT8)) &&
            (tOut == TensorProto_DataType_UINT8 ||
             (int8_allowed_ && tOut == TensorProto_DataType_INT8))) := by
  simp [UnarySelectorCheck, hc, hti, hto]

/-- C6: `UnarySelector` passes a fixed expected dequantize count of 1 (any
other parent count is a non-match, whatever the node's slot counts), and
matches exactly when input and output types are each independently `UINT8`,
or `INT8` when `int8_allowed_` is set; in particular a `UINT8` parent
feeding an `INT8` child is a non-match with the flag off and a match with
the flag on. -/
theorem C6_unary_characterization (int8_allowed_ : Bool) (graph : Graph)
    (node : Node) (dq_nodes q_nodes : List Node) :
    (dq_nodes.length ≠ 1 →
      UnarySelectorCheck int8_allowed_ graph node dq_nodes q_nodes
        = some false) ∧
    (∀ ti tOut : Int, CheckQDQNodes graph node dq_nodes q_nodes (some 1) = true →
      dqInputType dq_nodes 0 = some ti → qOutputType q_nodes 0 = some tOut →
      UnarySelectorCheck int8_allowed_ graph node dq_nodes q_nodes =
        some ((ti == TensorProto_DataType_UINT8 ||
               (int8_allowed_ && ti == TensorProto_DataType_INT8)) &&
              (tOut == TensorProto_DataType_UINT8 ||
               (int8_allowed_ && tOut == TensorProto_DataType_INT8)))) ∧
    (CheckQDQNodes graph node dq_nodes q_nodes (some 1) = true →
      dqInputType dq_nodes 0 = some TensorProto_DataType_UINT8 →
      qOutputType q_nodes 0 = some TensorProto_DataType_INT8 →
      UnarySelectorCheck false graph node dq_nodes q_nodes = some false ∧
      UnarySelectorCheck true graph node dq_nodes q_nodes = some true) := by
  refine ⟨?_, ?_, ?_⟩
  · intro h
    have hb : ((1 : Nat) == dq_nodes.length) = false :=
      beq_eq_false_iff_ne.mpr (fun he => h he.symm)
    simp [UnarySelectorCheck, CheckQDQNodes, hb]
  · intro ti tOut hc hti hto
    exact unaryCheck_eq_of_types int8_allowed_ graph node dq_nodes q_nodes
      ti tOut hc hti hto
  · intro hc hti hto
    constructor
    · rw [unaryCheck_eq_of_types false graph node dq_nodes q_nodes _ _
        hc hti hto]
      decide
    · rw [unaryCheck_eq_of_types true graph node dq_nodes q_nodes _ _
        hc hti hto]
      decide

/-- C6 witness: a `UINT8` dequantize parent feeding an `INT8` quantize
child is rejected with `int8_allowed_ = false` and accepted with
`int8_allowed_ = true`. -/
theorem C6_unary_characterization_witness :
    UnarySelectorCheck false (mkGraph [dqU8] [qI8] false) target11
      [dqU8] [qI8] = some false ∧
    UnarySelectorCheck true (mkGraph [dqU8] [qI8] false) target11
      [dqU8] [qI8] = some true :=
  (C6_unary_characterization false (mkGraph [dqU8] [qI8] false) target11
    [dqU8] [qI8]).2.2 (by decide) (by decide) (by decide)

/-- C7: once the shared check passes and all three type accesses succeed,
`BinarySelector` matches exactly when the two dequantize input types and
the quantize output type agree — pure equality, with no bit-width
restriction; parents of differing types are never a match (the checker has
no signed-8-bit configuration input at all). -/
theorem C7_binary_characterization (graph : Graph) (node : Node)
    (dq_nodes q_nodes : List Node) :
    (∀ t1 t2 tout : Int,
      CheckQDQNodes graph node dq_nodes q_nodes none = true →
      dqInputType dq_nodes 0 = some t1 → dqInputType dq_nodes 1 = some t2 →
      qOutputType q_nodes 0 = some tout →
      BinarySelectorCheck graph node dq_nodes q_nodes =
        some (t1 == t2 && t1 == tout)) ∧
    (∀ t1 t2 : Int, dqInputType dq_nodes 0 = some t1 →
      dqInputType dq_nodes 1 = some t2 → t1 ≠ t2 →
      BinarySelectorCheck graph node dq_nodes q_nodes ≠ some true) := by
  constructor
  · intro t1 t2 tout hc h1 h2 ho
    simp [BinarySelectorCheck, hc, h1, h2, ho]
  · intro t1 t2 h1 h2 hne
    cases hc : CheckQDQNodes graph node dq_nodes q_nodes none with
    | false => simp [BinarySelectorCheck, hc]
    | true =>
        cases ho : qOutputType q_nodes 0 with
        | none => simp [BinarySelectorCheck, hc, h1, h2, ho]
        | some tout =>
            simp [BinarySelectorCheck, hc, h1, h2, ho,
              beq_eq_false_iff_ne.mpr hne]

/-- C7 witness: a `UINT8` parent next to an `INT8` parent is a non-match
under a `UINT8` quantize child. -/
theorem C7_binary_characterization_witness :
    BinarySelectorCheck (mkGraph [dqU8, dqI8] [qU8] false) target21
      [dqU8, dqI8] [qU8] = some false := by
  rw [(C7_binary_characterization (mkGraph [dqU8, dqI8] [qU8] false) target21
    [dqU8, dqI8] [qU8]).1 TensorProto_DataType_UINT8 TensorProto_DataType_INT8
    TensorProto_DataType_UINT8 (by decide) (by decide) (by decide) (by decide)]
  decide

/-- Resizing always yields the requested length. -/
theorem resizeOptNodes_length (l : List (Option Node)) (n : Nat) :
    (resizeOptNodes l n).length = n := by
  simp [resizeOptNodes]
  omega

/-- Resizing a list of fewer than 3 entries to width 3 pads slot 2 with an
explicit empty entry. -/
theorem resizeOptNodes_getElem_two (l : List (Option Node))
    (h : l.length < 3) : (resizeOptNodes l 3)[2]? = some none := by
  cases l with
  | nil => rfl
  | cons a l1 =>
      cases l1 with
      | nil => rfl
      | cons b l2 =>
          cases l2 with
          | nil => rfl
          | cons c l3 => simp at h; omega

/-- C4: for Conv selection passing the shared check, a first dequantize
input type or quantize output type other than `UINT8` is a non-match; with
both `UINT8` and fewer than 3 parents the match succeeds with no bias
check at all and the built result's `input_nodes` has length exactly 3
with the third slot empty; with a third parent present the result is a
match exactly when the bias type is `INT32`. -/
theorem C4_conv_characterization (graph : Graph) (node : Node)
    (dq_nodes q_nodes : List Node) :
    (∀ ti tOut : Int,
      CheckQDQNodes graph node dq_nodes q_nodes none = true →
      dqInputType dq_nodes 0 = some ti → qOutputType q_nodes 0 = some tOut →
      (ti ≠ TensorProto_DataType_UINT8 ∨ tOut ≠ TensorProto_DataType_UINT8) →
      ConvSelectorCheck graph node dq_nodes q_nodes = some false) ∧
    (CheckQDQNodes graph node dq_nodes q_nodes none = true →
      dqInputType dq_nodes 0 = some TensorProto_DataType_UINT8 →
      qOutputType q_nodes 0 = some TensorProto_DataType_UINT8 →
      dq_nodes.length < 3 →
      ConvSelectorCheck graph node dq_nodes q_nodes = some true) ∧
    (dq_nodes = graph.findParentsByType node DQOpName →
      dq_nodes.length < 3 →
      ConvSelectorCheck graph node dq_nodes
        (graph.findChildrenByType node QOpName) = some true →
      ∃ r : ConstNodesToOptimize,
        Select .conv graph node = some (true, some r) ∧
        r.input_nodes.length = 3 ∧ r.input_nodes[2]? = some none) ∧
    (∀ t : Int, CheckQDQNodes graph node dq_nodes q_nodes none = true →
      dqInputType dq_nodes 0 = some TensorProto_DataType_UINT8 →
      qOutputType q_nodes 0 = some TensorProto_DataType_UINT8 →
      3 ≤ dq_nodes.length → dqInputType dq_nodes 2 = some t →
      ConvSelectorCheck graph node dq_nodes q_nodes =
        some (t == TensorProto_DataType_INT32)) := by
  refine ⟨?_, ?_, ?_, ?_⟩
  · intro ti tOut hc hi ho hd
    have hcond : (ti != TensorProto_DataType_UINT8 ||
        tOut != TensorProto_DataType_UINT8) = true := by
      simp only [Bool.or_eq_true, bne_iff_ne, ne_eq]
      exact hd
    simp [ConvSelectorCheck, hc, hi, ho, hcond]
  · intro hc hi ho hlen
    simp [ConvSelectorCheck, hc, hi, ho, hlen]
  · intro hdq hlen hcheck
    subst hdq
    have hsel := select_true .conv graph node (by
      simpa [Selector.Check] using hcheck)
    refine ⟨_, hsel, ?_, ?_⟩
    · simp [Selector.UpdateBuilder, ConstNodesToOptimizeBuilder.Build,
        resizeOptNodes_length]
    · simp only [Selector.UpdateBuilder, ConstNodesToOptimizeBuilder.Build]
      exact resizeOptNodes_getElem_two _ (by simpa using hlen)
  · intro t hc hi ho hlen hbias
    have hnl : ¬ dq_nodes.length < 3 := Nat.not_lt.mpr hlen
    simp [ConvSelectorCheck, hc, hi, ho, hnl, hbias]

/-- C4 witness: an activation parent of type `UINT8` and an arbitrary
weight parent, with no bias parent, match and the built result has three
input slots with the third empty. -/
theorem C4_conv_characterization_witness :
    ∃ r : ConstNodesToOptimize,
      Select .conv (mkGraph [dqU8, dqF] [qU8] false) target21 =
        some (true, some r) ∧
      r.input_nodes.length = 3 ∧ r.input_nodes[2]? = some none :=
  (C4_conv_characterization (mkGraph [dqU8, dqF] [qU8] false) target21
    [dqU8, dqF] [qU8]).2.2.1 (by decide) (by decide) (by decide)

/-- C8: the shared check accepts exactly when the dequantize-parent count
equals the expected count (defaulting to the node's bound-input count),
the quantize-child count equals the node's bound-output count, and the
node does not directly produce a graph output; appending an absent
optional slot never changes the bound count; and for the three checkers
with no count override, a bound-input count differing from the discovered
parent count forces `Select` to a non-match. -/
theorem C8_check_qdq_nodes_characterization (graph : Graph) (node : Node)
    (dq_nodes q_nodes : List Node) :
    (CheckQDQNodes graph node dq_nodes q_nodes none = true ↔
      (dq_nodes.length = NumActualValues node true ∧
       q_nodes.length = NumActualValues node false ∧
       graph.nodeProducesGraphOutput node = false)) ∧
    (∀ k : Nat, CheckQDQNodes graph node dq_nodes q_nodes (some k) = true ↔
      (dq_nodes.length = k ∧
       q_nodes.length = NumActualValues node false ∧
       graph.nodeProducesGraphOutput node = false)) ∧
    (∀ d : Option NodeArg,
      (d = none ∨ ∃ a : NodeArg, d = some a ∧ a.exists_ = false) →
      NumActualValues ⟨node.inputDefs ++ [d], node.outputDefs⟩ true =
        NumActualValues node true) ∧
    (∀ s : Selector,
      (s = Selector.binary ∨ s = Selector.variadic ∨ s = Selector.conv) →
      NumActualValues node true ≠
        (graph.findParentsByType node DQOpName).length →
      Select s graph node = some (false, none)) := by
  refine ⟨?_, ?_, ?_, ?_⟩
  · constructor
    · intro h
      simp only [CheckQDQNodes, Bool.and_eq_true, beq_iff_eq,
        Bool.not_eq_true'] at h
      exact ⟨h.1.1.symm, h.1.2.symm, h.2⟩
    · rintro ⟨h1, h2, h3⟩
      simp only [CheckQDQNodes, Bool.and_eq_true, beq_iff_eq,
        Bool.not_eq_true']
      exact ⟨⟨h1.symm, h2.symm⟩, h3⟩
  · intro k
    constructor
    · intro h
      simp only [CheckQDQNodes, Bool.and_eq_true, beq_iff_eq,
        Bool.not_eq_true'] at h
      exact ⟨h.1.1.symm, h.1.2.symm, h.2⟩
    · rintro ⟨h1, h2, h3⟩
      simp only [CheckQDQNodes, Bool.and_eq_true, beq_iff_eq,
        Bool.not_eq_true']
      exact ⟨⟨h1.symm, h2.symm⟩, h3⟩
  · rintro d (rfl | ⟨a, rfl, ha⟩)
    · simp [NumActualValues, List.filter_append]
    · simp [NumActualValues, List.filter_append, ha]
  · have hb : (NumActualValues node true ==
        (graph.findParentsByType node DQOpName).length) = false →
      CheckQDQNodes graph node (graph.findParentsByType node DQOpName)
        (graph.findChildrenByType node QOpName) none = false := by
      intro hbe
      simp [CheckQDQNodes, hbe]
    rintro s (rfl | rfl | rfl) hne <;>
      rw [select_false_iff] <;>
      simp [Selector.Check, BinarySelectorCheck, VariadicSelectorCheck,
        ConvSelectorCheck, hb (beq_eq_false_iff_ne.mpr hne)]

/-- C8 witness: a node with two bound inputs but only one discovered
dequantize parent is a non-match for the binary checker. -/
theorem C8_check_qdq_nodes_characterization_witness :
    Select .binary (mkGraph [dqU8] [] false) target21 = some (false, none) :=
  (C8_check_qdq_nodes_characterization (mkGraph [dqU8] [] false) target21
    [] []).2.2.2 .binary (Or.inl rfl) (by decide)

/-- If every element's first input type is `t`, the variadic loop
accepts. -/
theorem variadicTailCheck_all (t : Int) (l : List Node)
    (h : ∀ m ∈ l, firstInputElemType m = some t) :
    variadicTailCheck t l = some true := by
  induction l with
  | nil => rfl
  | cons n rest ih =>
      have hn : firstInputElemType n = some t := h n (List.mem_cons_self n rest)
      simp [variadicTailCheck, hn,
        ih (fun m hm => h m (List.mem_cons_of_mem n hm))]

/-- If the variadic loop accepts, every element's first input type is
`t`. -/
theorem variadicTailCheck_mem (t : Int) (l : List Node)
    (h : variadicTailCheck t l = some true) :
    ∀ m ∈ l, firstInputElemType m = some t := by
  induction l with
  | nil => intro m hm; cases hm
  | cons n rest ih =>
      intro m hm
      cases hn : firstInputElemType n with
      | none =>
          simp only [variadicTailCheck, hn] at h
          exact Option.noConfusion h
      | some tn =>
          simp only [variadicTailCheck, hn] at h
          split at h
          · rename_i hbe
            have htn : tn = t := (beq_iff_eq.mp hbe).symm
            rcases List.mem_cons.mp hm with rfl | hm2
            · rw [hn, htn]
            · exact ih h m hm2
          · simp at h

/-- The variadic loop rejects as soon as it meets an element whose type
differs, provided all earlier elements matched. -/
theorem variadicTailCheck_mismatch (t tBad : Int) (l1 : List Node) (x : Node)
    (l2 : List Node) (h1 : ∀ m ∈ l1, firstInputElemType m = some t)
    (hx : firstInputElemType x = some tBad) (hne : tBad ≠ t) :
    variadicTailCheck t (l1 ++ x :: l2) = some false := by
  induction l1 with
  | nil =>
      simp [variadicTailCheck, hx,
        beq_eq_false_iff_ne.mpr (fun he => hne he.symm)]
  | cons n rest ih =>
      have hn : firstInputElemType n = some t :=
        h1 n (List.mem_cons_self n rest)
      simp [variadicTailCheck, hn,
        ih (fun m hm => h1 m (List.mem_cons_of_mem n hm))]

/-- Overwriting the first input type really changes it, when the slot is
present. -/
theorem firstInputElemType_setFirstInputType (d : Node) (t T : Int)
    (h : firstInputElemType d = some T) :
    firstInputElemType (setFirstInputType d t) = some t := by
  cases hd : d.inputDefs with
  | nil =>
      simp only [firstInputElemType, firstArgElemType, hd] at h
      simp at h
  | cons a rest =>
      cases a with
      | none =>
          simp only [firstInputElemType, firstArgElemType, hd] at h
          simp at h
      | some arg =>
          simp [firstInputElemType, firstArgElemType, setFirstInputType, hd]

/-- C5: with the shared check passing and at least one dequantize parent,
the variadic checker matches exactly when every parent's first input type
agrees with the first parent's and with the quantize child's output type;
every successful `Select` result carries the arity override
`num_input_defs = 1`; and changing any single parent's input element type
to a different value turns the result into a non-match. -/
theorem C5_variadic_characterization (graph : Graph) (node : Node)
    (dq_nodes q_nodes : List Node) (T : Int) :
    (CheckQDQNodes graph node dq_nodes q_nodes none = true →
      dq_nodes ≠ [] →
      (∀ m ∈ dq_nodes, firstInputElemType m = some T) →
      qOutputType q_nodes 0 = some T →
      VariadicSelectorCheck graph node dq_nodes q_nodes = some true) ∧
    (VariadicSelectorCheck graph node dq_nodes q_nodes = some true →
      ∃ t0 : Int, (∀ m ∈ dq_nodes, firstInputElemType m = some t0) ∧
        qOutputType q_nodes 0 = some t0) ∧
    (∀ r : ConstNodesToOptimize,
      Select .variadic graph node = some (true, some r) →
      r.num_input_defs = 1) ∧
    (∀ (pre post : List Node) (d : Node) (tBad : Int),
      dq_nodes = pre ++ d :: post →
      CheckQDQNodes graph node dq_nodes q_nodes none = true →
      (∀ m ∈ dq_nodes, firstInputElemType m = some T) →
      qOutputType q_nodes 0 = some T → tBad ≠ T →
      VariadicSelectorCheck graph node
        (pre ++ setFirstInputType d tBad :: post) q_nodes = some false) := by
  refine ⟨?_, ?_, ?_, ?_⟩
  · intro hc hne hall hq
    cases dq_nodes with
    | nil => exact absurd rfl hne
    | cons d0 rest =>
        have h0 : firstInputElemType d0 = some T :=
          hall d0 (List.mem_cons_self d0 rest)
        have htail : variadicTailCheck T rest = some true :=
          variadicTailCheck_all T rest
            (fun m hm => hall m (List.mem_cons_of_mem d0 hm))
        simp [VariadicSelectorCheck, hc, dqInputType_cons_zero, h0,
          List.tail_cons, htail, hq]
  · intro h
    cases dq_nodes with
    | nil =>
        cases hc : CheckQDQNodes graph node [] q_nodes none with
        | false => simp [VariadicSelectorCheck, hc] at h
        | true => simp [VariadicSelectorCheck, hc, dqInputType] at h
    | cons d0 rest =>
        cases hc : CheckQDQNodes graph node (d0 :: rest) q_nodes none with
        | false => simp [VariadicSelectorCheck, hc] at h
        | true =>
            cases h0 : firstInputElemType d0 with
            | none =>
                simp [VariadicSelectorCheck, hc, dqInputType_cons_zero, h0]
                  at h
            | some t0 =>
                cases ht : variadicTailCheck t0 rest with
                | none =>
                    simp [VariadicSelectorCheck, hc, dqInputType_cons_zero,
                      h0, List.tail_cons, ht] at h
                | some b =>
                    cases b with
                    | false =>
                        simp [VariadicSelectorCheck, hc,
                          dqInputType_cons_zero, h0, List.tail_cons, ht] at h
                    | true =>
                        cases hq : qOutputType q_nodes 0 with
                        | none =>
                            simp [VariadicSelectorCheck, hc,
                              dqInputType_cons_zero, h0, List.tail_cons, ht,
                              hq] at h
                        | some tq =>
                            simp only [VariadicSelectorCheck, hc,
                              Bool.not_true, if_false, dqInputType_cons_zero,
                              h0, List.tail_cons, ht, hq] at h
                            have htq : t0 = tq := by
                              simpa using h
                            refine ⟨t0, ?_, ?_⟩
                            · intro m hm
                              rcases List.mem_cons.mp hm with rfl | hm2
                              · exact h0
                              · exact variadicTailCheck_mem t0 rest ht m hm2
                            · exact congrArg some htq.symm
  · intro r hr
    cases hchk : Selector.Check .variadic graph node
        (graph.findParentsByType node DQOpName)
        (graph.findChildrenByType node QOpName) with
    | none => simp [Select, hchk] at hr
    | some b =>
        cases b with
        | false => simp [Select, hchk] at hr
        | true =>
            rw [select_true .variadic graph node hchk] at hr
            have hr2 := (Option.some_injective _ hr).symm
            have hr3 := (Prod.ext_iff.mp hr2).2
            have hr4 := Option.some_injective _ hr3
            rw [hr4]
            simp [Selector.UpdateBuilder, ConstNodesToOptimizeBuilder.Build]
  · intro pre post d tBad hsplit hc hall hq hne
    have hlen : dq_nodes.length =
        (pre ++ setFirstInputType d tBad :: post).length := by
      subst hsplit; simp
    have hc2 : CheckQDQNodes graph node
        (pre ++ setFirstInputType d tBad :: post) q_nodes none = true := by
      rw [← checkQDQNodes_length_congr graph node q_nodes none hlen]
      exact hc
    have hd : firstInputElemType d = some T := by
      subst hsplit
      exact hall d (by simp)
    have hdset : firstInputElemType (setFirstInputType d tBad) = some tBad :=
      firstInputElemType_setFirstInputType d tBad T hd
    cases pre with
    | nil =>
        cases post with
        | nil =>
            simp [VariadicSelectorCheck, hc2, dqInputType_cons_zero, hdset,
              List.tail_cons, variadicTailCheck, hq,
              beq_eq_false_iff_ne.mpr (fun he => hne he)]
        | cons p ps =>
            have hp : firstInputElemType p = some T := by
              subst hsplit
              exact hall p (by simp)
            simp [VariadicSelectorCheck, hc2, dqInputType_cons_zero, hdset,
              List.tail_cons, variadicTailCheck, hp,
              beq_eq_false_iff_ne.mpr hne]
    | cons p0 pre2 =>
        have hp0 : firstInputElemType p0 = some T := by
          subst hsplit
          exact hall p0 (by simp)
        have htail : variadicTailCheck T
            (pre2 ++ setFirstInputType d tBad :: post) = some false :=
          variadicTailCheck_mismatch T tBad pre2 (setFirstInputType d tBad)
            post
            (fun m hm => by
              subst hsplit
              exact hall m (by simp [hm]))
            hdset hne
        simp [VariadicSelectorCheck, hc2, List.cons_append,
          dqInputType_cons_zero, hp0, List.tail_cons, htail]

/-- C5 witness: three `INT8` parents under an `INT8` child match. -/
theorem C5_variadic_characterization_witness :
    VariadicSelectorCheck (mkGraph [dqI8, dqI8, dqI8] [qI8] false) target31
      [dqI8, dqI8, dqI8] [qI8] = some true :=
  (C5_variadic_characterization (mkGraph [dqI8, dqI8, dqI8] [qI8] false)
    target31 [dqI8, dqI8, dqI8] [qI8] TensorProto_DataType_INT8).1
    (by decide) (by decide) (by decide) (by decide)

end NNAPIQDQ
